import Mathlib

/-!
Verification of the folder-upload pipeline in `script.py`.

The development shallowly embeds the pipeline's pure decision logic:
JSON structure validation, record transformation, the per-image upload
retry loop, the per-folder orchestration that computes `overall_success`
and picks a marker filename, the marker-file write, the folder scanner's
filtering and ordering, and the batch driver's loop and exit code.
External effects (filesystem stats, backend calls) are passed in as
explicit data so every function is executable.
-/

/-- JSON values as parsed by `json.load`: Python dicts become `obj`
(association lists, first binding wins on lookup as in a dict), lists
become `arr`. Numbers are modelled as integers; no claim depends on
float behaviour. -/
inductive Json where
  | null : Json
  | bool : Bool → Json
  | num : Int → Json
  | str : String → Json
  | arr : List Json → Json
  | obj : List (String × Json) → Json

/-- Python `isinstance(x, dict)`. -/
def Json.isObj : Json → Bool
  | .obj _ => true
  | _ => false

/-- Python `d[k]` lookup returning `none` when the key is absent. -/
def Json.lookup : Json → String → Option Json
  | .obj fields, k => fields.lookup k
  | _, _ => none

/-- Python `d.get(k)`: `None` (modelled `Json.null`) when absent. -/
def Json.getOpt (j : Json) (k : String) : Json :=
  (j.lookup k).getD Json.null

/-- Python `d.get(k, default)`: the default only when the key is absent. -/
def Json.getD (j : Json) (k : String) (d : Json) : Json :=
  (j.lookup k).getD d

/-- Function `validate_json_structure` (script.py lines 70-90).  Raising
`ValidationError` is modelled as `Except.error` carrying the message;
the identifier check only logs a warning, so it does not appear in the
result. -/
def validate_json_structure (data : Json) (filename : String) : Except String Unit :=
  match data with
  | .obj _ => .ok ()
  | .arr items =>
      if items.isEmpty then
        .error ("Empty JSON array in " ++ filename)
      else if !(items.all Json.isObj) then
        .error ("Invalid JSON array in " ++ filename ++ ": all items must be objects")
      else
        .ok ()
  | _ => .error ("Invalid JSON structure in " ++ filename ++ ": must be dict or list")

/-- One row prepared for the `device_test` table insert
(script.py lines 450-463 and 470-483). -/
structure DbRecord where
  folder_name : String
  data_type : Json
  data : Json
  device_id : Json
  device_name : Json
  device_type : Json
  test_results : Json
  test_date : Json
  test_status : Json
  upload_batch : Json
  notes : Json
  metadata : Json

/-- Builds the db_record dict from one source object
(script.py lines 450-463). -/
def build_db_record (folder_name : String) (item : Json) : DbRecord :=
  { folder_name := folder_name
    data_type := item.getD "data_type" (.str "device_test")
    data := item
    device_id := item.getOpt "device_id"
    device_name := item.getOpt "device_name"
    device_type := item.getOpt "device_type"
    test_results := item.getOpt "test_results"
    test_date := item.getOpt "test_date"
    test_status := item.getD "test_status" (.str "pending")
    upload_batch := item.getOpt "upload_batch"
    notes := item.getOpt "notes"
    metadata := item.getD "metadata" (.obj []) }

/-- The record-building section of `process_single_folder`
(script.py lines 446-484): a dict gives one record, a list gives one
record per dict element (non-dict elements are passed over by the
`isinstance(item, dict)` guard), anything else gives none. -/
def build_db_records (folder_name : String) (json_data : Json) : List DbRecord :=
  match json_data with
  | .obj _ => [build_db_record folder_name json_data]
  | .arr items => (items.filter Json.isObj).map (build_db_record folder_name)
  | _ => []

/-- Static facts about one image file that the upload code observes
(`os.path.exists`, `os.access`, `os.path.getsize`, reading the bytes). -/
structure FileInfo where
  present : Bool
  readable : Bool
  size : Nat
  readOk : Bool
deriving DecidableEq, Repr

/-- Result of `upload_image_with_retry` together with the loop's
observable behaviour: how many attempts ran and which backoff waits
(`time.sleep(2 ** attempt)`) were performed. -/
structure UploadOutcome where
  success : Bool
  error : String
  url : String
  attemptsUsed : Nat
  sleeps : List Nat
deriving DecidableEq, Repr

/-- The `for attempt in range(max_retries)` body of
`upload_image_with_retry` (script.py lines 200-255).  `exn attempt`
gives the exception message raised by the storage call on that attempt
(`none` = the call returned).  `fuel` counts the loop iterations still
allowed by `range(max_retries)`. -/
def upload_attempt_loop (f : FileInfo) (file_path : String) (publicUrl : String)
    (exn : Nat → Option String) (max_retries : Nat) :
    Nat → Nat → List Nat → UploadOutcome
  | attempt, 0, sleeps => ⟨false, "Max retries exceeded", "", attempt, sleeps⟩
  | attempt, fuel + 1, sleeps =>
    if !f.present then
      ⟨false, "File not found: " ++ file_path, "", attempt + 1, sleeps⟩
    else if !f.readable then
      ⟨false, "No read permission for file: " ++ file_path, "", attempt + 1, sleeps⟩
    else if f.size = 0 then
      ⟨false, "File is empty: " ++ file_path, "", attempt + 1, sleeps⟩
    else if 50 * 1024 * 1024 < f.size then
      ⟨false, "File too large (" ++ toString f.size ++ " bytes): " ++ file_path, "",
        attempt + 1, sleeps⟩
    else if !f.readOk then
      ⟨false, "Error reading file " ++ file_path, "", attempt + 1, sleeps⟩
    else
      match exn attempt with
      | none =>
          if publicUrl = "" then
            ⟨false, "Failed to get public URL", "", attempt + 1, sleeps⟩
          else
            ⟨true, "", publicUrl, attempt + 1, sleeps⟩
      | some e =>
          if attempt < max_retries - 1 then
            upload_attempt_loop f file_path publicUrl exn max_retries
              (attempt + 1) fuel (sleeps ++ [2 ^ attempt])
          else
            ⟨false, "All upload attempts failed. Last error: " ++ e, "", attempt + 1, sleeps⟩

/-- Function `upload_image_with_retry` with its default `max_retries = 3`. -/
def upload_image_with_retry (f : FileInfo) (file_path : String) (publicUrl : String)
    (exn : Nat → Option String) (max_retries : Nat) : UploadOutcome :=
  upload_attempt_loop f file_path publicUrl exn max_retries 0 max_retries []

/-- One candidate image file handed to `upload_images_to_bucket`,
bundling the backend's behaviour for it. -/
structure ImageJob where
  filename : String
  info : FileInfo
  exn : Nat → Option String
  publicUrl : String

/-- Entry of the `uploaded_images` list (script.py lines 284-289). -/
structure UploadedImage where
  filename : String
  storage_path : String
  public_url : String
  size_bytes : Nat
deriving DecidableEq, Repr

/-- Entry of the `failed_images` list (script.py lines 293-296). -/
structure FailedImage where
  filename : String
  error : String
deriving DecidableEq, Repr

/-- One iteration of the loop in `upload_images_to_bucket`
(script.py lines 271-306). -/
def upload_one_image (folder_path : String) (folder_name : String) (job : ImageJob) :
    UploadedImage ⊕ FailedImage :=
  let file_path := folder_path ++ "/" ++ job.filename
  let storage_path := folder_name ++ "/" ++ job.filename
  let r := upload_image_with_retry job.info file_path job.publicUrl job.exn 3
  if r.success then .inl ⟨job.filename, storage_path, r.url, job.info.size⟩
  else .inr ⟨job.filename, r.error⟩

/-- Function `upload_images_to_bucket` (script.py lines 257-312): the sequential
loop appending to `uploaded_images`, `failed_images` and `image_urls`. -/
def upload_images_to_bucket (folder_path : String) (folder_name : String) :
    List ImageJob → List UploadedImage × List FailedImage × List String
  | [] => ([], [], [])
  | job :: rest =>
    let r := upload_one_image folder_path folder_name job
    let t := upload_images_to_bucket folder_path folder_name rest
    match r with
    | .inl up => (up :: t.1, t.2.1, up.public_url :: t.2.2)
    | .inr fl => (t.1, fl :: t.2.1, t.2.2)

/-- What the backend does on one table call: a response whose `data`
has the given number of rows (`0` is falsy in Python), or a raised
exception. -/
inductive DbAttempt where
  | resp : Nat → DbAttempt
  | exn : String → DbAttempt
deriving DecidableEq, Repr

/-- The retry loop shared by `insert_data_with_retry`
(script.py lines 314-337) and `update_records_with_images`
(script.py lines 588-611); the two differ only in their messages,
passed in as `emptyMsg`/`failMsg`. -/
def db_retry_loop (att : Nat → DbAttempt) (emptyMsg failMsg : String) (max_retries : Nat) :
    Nat → Nat → Bool × String × Nat
  | _, 0 => (false, "Max retries exceeded", 0)
  | attempt, fuel + 1 =>
    match att attempt with
    | .resp n => if n = 0 then (false, emptyMsg, 0) else (true, "", n)
    | .exn e =>
      if attempt < max_retries - 1 then
        db_retry_loop att emptyMsg failMsg max_retries (attempt + 1) fuel
      else
        (false, failMsg ++ e, 0)

/-- Function `insert_data_with_retry` with its default `max_retries = 3`.  The
`records` argument is what the script sends to the backend; the
backend's reaction is the `att` oracle. -/
def insert_data_with_retry (att : Nat → DbAttempt) (_records : List DbRecord) :
    Bool × String × Nat :=
  db_retry_loop att "No data returned from insert operation"
    "All database insert attempts failed. Last error: " 3 0 3

/-- Function `update_records_with_images` with its default `max_retries = 3`. -/
def update_records_with_images (att : Nat → DbAttempt) (_urls : List String) :
    Bool × String × Nat :=
  db_retry_loop att "No records updated"
    "All update attempts failed. Last error: " 3 0 3

/-- Everything `process_single_folder` observes about one folder and
the backend: the non-marker `.json` files, the manifest file's
accessibility and parse result, the backend's reaction to the insert
and to the URL back-fill, the classified image files, and whether the
marker write succeeds. -/
structure FolderEnv where
  folder_name : String
  folder_path : String
  json_files : List String
  manifest_readable : Bool
  manifest_size : Nat
  manifest_json : Except String Json
  insert_att : Nat → DbAttempt
  images : List ImageJob
  update_att : Nat → DbAttempt
  marker_write_ok : Bool

/-- Outcome of the manifest (JSON) stage of `process_single_folder`
(script.py lines 414-509): the `json_upload_success`, `json_error` and
`records_inserted` variables, plus whether the insert call was reached. -/
structure JsonStage where
  success : Bool
  error : Option String
  records_inserted : Nat
  insert_called : Bool
deriving DecidableEq, Repr

/-- The manifest stage of `process_single_folder`
(script.py lines 414-509).  Raised `ValidationError`s and JSON decode
errors are caught there and stored in `json_error`. -/
def manifest_stage (env : FolderEnv) : JsonStage :=
  match env.json_files with
  | [] => ⟨false, some "No JSON files found in folder", 0, false⟩
  | [fname] =>
    if !env.manifest_readable then
      ⟨false, some ("No read permission for JSON file: " ++ fname), 0, false⟩
    else if env.manifest_size = 0 then
      ⟨false, some ("JSON file is empty: " ++ fname), 0, false⟩
    else
      match env.manifest_json with
      | .error e => ⟨false, some ("Error decoding JSON from " ++ fname ++ ": " ++ e), 0, false⟩
      | .ok jd =>
        match validate_json_structure jd fname with
        | .error e => ⟨false, some e, 0, false⟩
        | .ok _ =>
          let recs := build_db_records env.folder_name jd
          if recs.isEmpty then
            ⟨false, some "No valid records found in JSON", 0, false⟩
          else
            let r := insert_data_with_retry env.insert_att recs
            if r.1 then ⟨true, none, r.2.2, true⟩
            else ⟨false, some ("Database insert failed: " ++ r.2.1), r.2.2, true⟩
  | fs => ⟨false, some ("Multiple JSON files found: " ++ toString fs ++ ". Expected only one."),
      0, false⟩

/-- The data `process_single_folder` produces for one folder: the
result-file fields the claims talk about, the chosen marker filename,
and the boolean returned to the batch driver. -/
structure FolderResult where
  json_upload_success : Bool
  json_error : Option String
  records_inserted : Nat
  insert_called : Bool
  total_images : Nat
  uploaded_images : List UploadedImage
  failed_images : List FailedImage
  image_urls : List String
  backfill : Option (Bool × String × Nat)
  overall_success : Bool
  marker_filename : String
  result_written : Bool
  returned : Bool

/-- Function `process_single_folder` (script.py lines 377-586) on an accessible
folder: manifest stage, image uploads, best-effort URL back-fill,
`overall_success` computation (lines 531-536), marker filename choice
(line 564) and the returned value (line 575). -/
def process_single_folder (env : FolderEnv) : FolderResult :=
  let js := manifest_stage env
  let media := upload_images_to_bucket env.folder_path env.folder_name env.images
  let backfill :=
    if js.success && !media.2.2.isEmpty then
      some (update_records_with_images env.update_att media.2.2)
    else none
  let overall :=
    js.success && media.2.1.isEmpty && (env.images.isEmpty || !media.1.isEmpty)
  { json_upload_success := js.success
    json_error := js.error
    records_inserted := js.records_inserted
    insert_called := js.insert_called
    total_images := env.images.length
    uploaded_images := media.1
    failed_images := media.2.1
    image_urls := media.2.2
    backfill := backfill
    overall_success := overall
    marker_filename := if overall then "upload_success.json" else "upload_failed.json"
    result_written := env.marker_write_ok
    returned := overall }

/-- File-presence effect of a successful `write_result_file`
(script.py lines 339-375) on a folder, with the folder's files as a
set of names: an existing file of the same name is renamed to
`<name>.backup`, then the new file is written. -/
def write_result_file (files : List String) (filename : String) : List String :=
  let afterBackup :=
    if filename ∈ files then List.insert (filename ++ ".backup") (files.erase filename)
    else files
  List.insert filename afterBackup

/-- Python `if overall_success` marker filename choice (script.py line 564). -/
def marker_name (overall_success : Bool) : String :=
  if overall_success then "upload_success.json" else "upload_failed.json"

/-- Marker write performed at the end of `process_single_folder`
(script.py lines 564-565), as its effect on the folder's files. -/
def process_marker_write (files : List String) (overall_success : Bool) : List String :=
  write_result_file files (marker_name overall_success)

/-- One entry of `os.listdir(parent_folder)` as observed by
`get_subfolders_to_process`: its name, whether it is a directory,
which marker files it contains, and its modification time (`none` when
`os.path.getmtime` raises). The scanner never reads
`hasFailedMarker`. -/
structure DirItem where
  name : String
  isDir : Bool
  hasSuccessMarker : Bool
  hasFailedMarker : Bool
  mtime : Option Nat
deriving DecidableEq, Repr

/-- One element of the `subfolders` list before sorting
(script.py lines 129 and 133): `(item_path, mod_time, item)`. -/
structure SubEntry where
  path : String
  mtime : Nat
  name : String
deriving DecidableEq, Repr

/-- The filtering loop of `get_subfolders_to_process`
(script.py lines 114-137): keep directories without
`upload_success.json`, falling back to the current time when the
modification time cannot be read. -/
def scan_filter (parent : String) (now : Nat) (items : List DirItem) : List SubEntry :=
  items.filterMap fun it =>
    if !it.isDir then none
    else if it.hasSuccessMarker then none
    else some ⟨parent ++ "/" ++ it.name, (it.mtime).getD now, it.name⟩

/-- Stable insertion for descending modification time: the element
being inserted goes before the first entry whose time is not larger,
so among equal times earlier input stays earlier — the placement of a
stable sort with `reverse=True`. -/
def insertMtimeDesc (x : SubEntry) : List SubEntry → List SubEntry
  | [] => [x]
  | y :: ys => if y.mtime ≤ x.mtime then x :: y :: ys else y :: insertMtimeDesc x ys

/-- Python `subfolders.sort(key=lambda x: x[1], reverse=True)`
(script.py line 140): Python's sort is stable, and a stable descending
sort is extensionally this insertion sort. -/
def sortMtimeDesc : List SubEntry → List SubEntry
  | [] => []
  | x :: xs => insertMtimeDesc x (sortMtimeDesc xs)

/-- The sorted `subfolders` list of `get_subfolders_to_process`. -/
def scanner_sorted (parent : String) (now : Nat) (items : List DirItem) : List SubEntry :=
  sortMtimeDesc (scan_filter parent now items)

/-- Function `get_subfolders_to_process` (script.py lines 92-144): the returned
`(folder_path, folder_name)` pairs. -/
def get_subfolders_to_process (parent : String) (now : Nat) (items : List DirItem) :
    List (String × String) :=
  (scanner_sorted parent now items).map fun s => (s.path, s.name)

/-- What one iteration of the batch driver's loop observes for a
folder: `process_single_folder` returned a value, raised
`KeyboardInterrupt`, or raised some other exception. -/
inductive FolderRun where
  | ok : Bool → FolderRun
  | interrupt : FolderRun
  | err : String → FolderRun
deriving DecidableEq, Repr

/-- The driver's counters after the loop (script.py lines 683-706). -/
structure BatchTally where
  total : Nat
  succeeded : Nat
  failed : Nat
  interrupted : Bool
deriving DecidableEq, Repr

/-- The `for folder_path, folder_name in folders_to_process` loop
(script.py lines 688-706): `total_folders_processed` is incremented
before the try, success/failure update the counters, an unexpected
error counts as failed and continues, and `KeyboardInterrupt` breaks
out of the loop. -/
def drive : List FolderRun → BatchTally
  | [] => ⟨0, 0, 0, false⟩
  | .ok true :: rest =>
    let t := drive rest
    ⟨t.total + 1, t.succeeded + 1, t.failed, t.interrupted⟩
  | .ok false :: rest =>
    let t := drive rest
    ⟨t.total + 1, t.succeeded, t.failed + 1, t.interrupted⟩
  | .err _ :: rest =>
    let t := drive rest
    ⟨t.total + 1, t.succeeded, t.failed + 1, t.interrupted⟩
  | .interrupt :: _ => ⟨1, 0, 0, true⟩

/-- The exit code computed after the loop (script.py lines 678-727):
`0` when there was nothing to process, otherwise `1` exactly when some
folder was counted as failed. -/
def main_exit_code (runs : List FolderRun) : Nat :=
  if runs.isEmpty then 0
  else
    let t := drive runs
    if 0 < t.total then (if 0 < t.failed then 1 else 0) else 0

/-- A concrete folder whose single manifest parses to an empty JSON
array; backend and images are benign. -/
def envEmptyArray : FolderEnv :=
  { folder_name := "f"
    folder_path := "p/f"
    json_files := ["m.json"]
    manifest_readable := true
    manifest_size := 2
    manifest_json := .ok (.arr [])
    insert_att := fun _ => .resp 1
    images := []
    update_att := fun _ => .resp 1
    marker_write_ok := true }

/-- A concrete folder whose single manifest parses to an array holding
one object and one number. -/
def envMixedArray : FolderEnv :=
  { folder_name := "f"
    folder_path := "p/f"
    json_files := ["m.json"]
    manifest_readable := true
    manifest_size := 2
    manifest_json := .ok (.arr [Json.obj [("device_id", Json.str "d")], Json.num 1])
    insert_att := fun _ => .resp 1
    images := []
    update_att := fun _ => .resp 1
    marker_write_ok := true }

/-- A concrete image file one byte over the 50 MiB cap. -/
def bigImageJob : ImageJob :=
  { filename := "big.jpg"
    info := { present := true, readable := true, size := 50 * 1024 * 1024 + 1, readOk := true }
    exn := fun _ => none
    publicUrl := "http://u/x" }

/-- The image-upload loop is a fold with no cross-file state: its three
output lists over a concatenation are the concatenations of the
per-part outputs, so each file's classification is independent of the
other files. -/
theorem upload_images_append (folder_path folder_name : String) (l1 l2 : List ImageJob) :
    upload_images_to_bucket folder_path folder_name (l1 ++ l2) =
      ((upload_images_to_bucket folder_path folder_name l1).1
          ++ (upload_images_to_bucket folder_path folder_name l2).1,
       (upload_images_to_bucket folder_path folder_name l1).2.1
          ++ (upload_images_to_bucket folder_path folder_name l2).2.1,
       (upload_images_to_bucket folder_path folder_name l1).2.2
          ++ (upload_images_to_bucket folder_path folder_name l2).2.2) := by
  induction l1 with
  | nil => simp [upload_images_to_bucket]
  | cons job rest ih =>
    cases h : upload_one_image folder_path folder_name job <;>
      simp [upload_images_to_bucket, h, ih]

/-- Inserting for the descending sort permutes. -/
theorem insertMtimeDesc_perm (x : SubEntry) (l : List SubEntry) :
    List.Perm (insertMtimeDesc x l) (x :: l) := by
  induction l with
  | nil => exact List.Perm.refl _
  | cons y ys ih =>
    by_cases h : y.mtime ≤ x.mtime
    · simp [insertMtimeDesc, h]
    · simp only [insertMtimeDesc, h, if_neg, ite_false]
      exact (ih.cons y).trans (List.Perm.swap x y ys)

/-- The scanner's sort is a permutation of its input. -/
theorem sortMtimeDesc_perm (l : List SubEntry) : List.Perm (sortMtimeDesc l) l := by
  induction l with
  | nil => exact List.Perm.refl _
  | cons x xs ih => exact (insertMtimeDesc_perm x (sortMtimeDesc xs)).trans (ih.cons x)

/-- Membership after insertion. -/
theorem mem_insertMtimeDesc {z x : SubEntry} {l : List SubEntry} :
    z ∈ insertMtimeDesc x l ↔ z = x ∨ z ∈ l := by
  rw [(insertMtimeDesc_perm x l).mem_iff, List.mem_cons]

/-- Insertion keeps the descending order. -/
theorem pairwise_insertMtimeDesc (x : SubEntry) (l : List SubEntry)
    (h : List.Pairwise (fun a b => b.mtime ≤ a.mtime) l) :
    List.Pairwise (fun a b => b.mtime ≤ a.mtime) (insertMtimeDesc x l) := by
  induction l with
  | nil => simp [insertMtimeDesc]
  | cons y ys ih =>
    rcases List.pairwise_cons.mp h with ⟨hy, hys⟩
    by_cases hc : y.mtime ≤ x.mtime
    · simp only [insertMtimeDesc, hc, ite_true]
      refine List.pairwise_cons.mpr ⟨?_, h⟩
      intro z hz
      rcases List.mem_cons.mp hz with rfl | hz
      · exact hc
      · exact le_trans (hy z hz) hc
    · simp only [insertMtimeDesc, hc, ite_false]
      refine List.pairwise_cons.mpr ⟨?_, ih hys⟩
      intro z hz
      rcases mem_insertMtimeDesc.mp hz with rfl | hz
      · exact le_of_lt (lt_of_not_le hc)
      · exact hy z hz

/-- The scanner's sorted list is descending in modification time. -/
theorem sortMtimeDesc_sorted (l : List SubEntry) :
    List.Pairwise (fun a b => b.mtime ≤ a.mtime) (sortMtimeDesc l) := by
  induction l with
  | nil => simp [sortMtimeDesc]
  | cons x xs ih => exact pairwise_insertMtimeDesc x (sortMtimeDesc xs) ih

/-- Insertion passes only strictly-newer entries, so the sublist at any
fixed timestamp gains the inserted element at its front exactly when it
carries that timestamp. -/
theorem filter_insertMtimeDesc (x : SubEntry) (l : List SubEntry) (k : Nat) :
    (insertMtimeDesc x l).filter (fun s => s.mtime == k) =
      if x.mtime = k then x :: l.filter (fun s => s.mtime == k)
      else l.filter (fun s => s.mtime == k) := by
  induction l with
  | nil => by_cases hx : x.mtime = k <;> simp [insertMtimeDesc, hx]
  | cons y ys ih =>
    by_cases hc : y.mtime ≤ x.mtime
    · by_cases hx : x.mtime = k
      · subst hx
        simp [insertMtimeDesc, hc, List.filter_cons]
      · simp [insertMtimeDesc, hc, hx, List.filter_cons]
    · have hlt : x.mtime < y.mtime := lt_of_not_le hc
      by_cases hx : x.mtime = k
      · subst hx
        have hy : y.mtime ≠ x.mtime := ne_of_gt hlt
        simp [insertMtimeDesc, hc, hy, List.filter_cons, ih]
      · simp [insertMtimeDesc, hc, hx, List.filter_cons, ih]

/-- Stability of the scanner's sort: among entries with one and the
same timestamp, the directory-listing order is preserved. -/
theorem filter_sortMtimeDesc (l : List SubEntry) (k : Nat) :
    (sortMtimeDesc l).filter (fun s => s.mtime == k) =
      l.filter (fun s => s.mtime == k) := by
  induction l with
  | nil => rfl
  | cons x xs ih =>
    by_cases hx : x.mtime = k <;>
      simp [sortMtimeDesc, filter_insertMtimeDesc, hx, ih]

/-- C1: for every processed folder, `overall_success` is true exactly
when the manifest insert succeeded, the failed-image list is empty,
and the folder either had no image files or at least one image upload
succeeded; and the marker filename is `upload_success.json` exactly
when `overall_success` is true, `upload_failed.json` exactly when it
is false. -/
theorem C1_overall_success_and_marker (env : FolderEnv) :
    ((process_single_folder env).overall_success = true ↔
      ((process_single_folder env).json_upload_success = true ∧
       (process_single_folder env).failed_images = [] ∧
       ((process_single_folder env).total_images = 0 ∨
        (process_single_folder env).uploaded_images ≠ []))) ∧
    ((process_single_folder env).marker_filename = "upload_success.json" ↔
      (process_single_folder env).overall_success = true) ∧
    ((process_single_folder env).marker_filename = "upload_failed.json" ↔
      (process_single_folder env).overall_success = false) := by
  have hname : ∀ b : Bool,
      ((if b then "upload_success.json" else "upload_failed.json") = "upload_success.json" ↔
        b = true) ∧
      ((if b then "upload_success.json" else "upload_failed.json") = "upload_failed.json" ↔
        b = false) := by decide
  refine ⟨?_, (hname _).1, (hname _).2⟩
  simp [process_single_folder, and_assoc]

/-- C1 witness: the formula and the marker correspondence evaluated on
a concrete folder. -/
theorem C1_overall_success_and_marker_witness :
    (process_single_folder envEmptyArray).marker_filename = "upload_failed.json" ↔
      (process_single_folder envEmptyArray).overall_success = false :=
  (C1_overall_success_and_marker envEmptyArray).2.2

/-- C9: the folder outcome returned to the driver, the computed
`overall_success`, and the chosen marker filename do not depend on how
the URL back-fill behaves (`update_att`) or on whether the marker
write succeeds (`marker_write_ok`): varying only those two leaves all
three unchanged. -/
theorem C9_backfill_and_marker_write_harmless (env : FolderEnv)
    (ua : Nat → DbAttempt) (mw : Bool) :
    (process_single_folder { env with update_att := ua, marker_write_ok := mw }).returned
        = (process_single_folder env).returned ∧
    (process_single_folder { env with update_att := ua, marker_write_ok := mw }).marker_filename
        = (process_single_folder env).marker_filename ∧
    (process_single_folder { env with update_att := ua, marker_write_ok := mw }).overall_success
        = (process_single_folder env).overall_success :=
  ⟨rfl, rfl, rfl⟩

/-- C10: a manifest parsing to an empty JSON array makes validation
fail with "Empty JSON array", so the manifest stage records that
error, never calls the database insert, `json_upload_success` stays
false, and the folder's `overall_success` is false with the failure
marker chosen. -/
theorem C10_empty_array_fails_folder (env : FolderEnv) (fname : String)
    (h1 : env.json_files = [fname]) (h2 : env.manifest_readable = true)
    (h3 : env.manifest_size ≠ 0) (h4 : env.manifest_json = .ok (.arr [])) :
    (process_single_folder env).json_error = some ("Empty JSON array in " ++ fname) ∧
    (process_single_folder env).insert_called = false ∧
    (process_single_folder env).json_upload_success = false ∧
    (process_single_folder env).overall_success = false ∧
    (process_single_folder env).marker_filename = "upload_failed.json" := by
  have hm : manifest_stage env =
      ⟨false, some ("Empty JSON array in " ++ fname), 0, false⟩ := by
    rw [manifest_stage, h1, h4]
    simp [h2, h3, validate_json_structure]
  refine ⟨?_, ?_, ?_, ?_, ?_⟩ <;> simp [process_single_folder, hm]

/-- C10 witness: the conclusion evaluated on `envEmptyArray`. -/
theorem C10_empty_array_fails_folder_witness :
    (process_single_folder envEmptyArray).json_error =
        some ("Empty JSON array in " ++ "m.json") ∧
    (process_single_folder envEmptyArray).insert_called = false ∧
    (process_single_folder envEmptyArray).json_upload_success = false ∧
    (process_single_folder envEmptyArray).overall_success = false ∧
    (process_single_folder envEmptyArray).marker_filename = "upload_failed.json" :=
  C10_empty_array_fails_folder envEmptyArray "m.json" rfl rfl (by decide) rfl

/-- C2 counterexample: on a manifest array holding one object and one
number, `validate_json_structure` raises, the manifest stage records
the fatal "all items must be objects" error, produces no record and
never reaches the insert — so a non-object element is not merely
skipped. -/
theorem C2_counterexample_nonobject_is_fatal :
    (manifest_stage envMixedArray).success = false ∧
    (manifest_stage envMixedArray).error =
      some "Invalid JSON array in m.json: all items must be objects" ∧
    (manifest_stage envMixedArray).insert_called = false ∧
    (manifest_stage envMixedArray).records_inserted = 0 :=
  ⟨rfl, rfl, rfl, rfl⟩

/-- C2 amended: if every element of the manifest array is an object,
validation passes and the transformer yields one record per element;
but as soon as one element is not an object, validation fails with
"all items must be objects" — a fatal error for the manifest stage,
so the skipping branch of the transformation loop is unreachable for
such arrays. -/
theorem C2_amended_array_records (folder fname : String) (items : List Json) :
    (items ≠ [] → items.all Json.isObj = true →
      validate_json_structure (.arr items) fname = .ok () ∧
      build_db_records folder (.arr items) = items.map (build_db_record folder)) ∧
    (items.all Json.isObj = false →
      validate_json_structure (.arr items) fname =
        .error ("Invalid JSON array in " ++ fname ++ ": all items must be objects")) := by
  constructor
  · intro hne hall
    constructor
    · simp [validate_json_structure, hne, hall]
    · have : items.filter Json.isObj = items :=
        List.filter_eq_self.mpr (by simpa [List.all_eq_true] using hall)
      simp [build_db_records, this]
  · intro hall
    have hne : items ≠ [] := by
      intro h
      rw [h] at hall
      simp at hall
    simp [validate_json_structure, hne, hall]

/-- C2 amended witness: a one-object array yields passing validation
and exactly one record. -/
theorem C2_amended_array_records_witness :
    validate_json_structure (.arr [Json.obj []]) "m.json" = .ok () ∧
    build_db_records "f" (.arr [Json.obj []]) =
      [Json.obj []].map (build_db_record "f") :=
  (C2_amended_array_records "f" "m.json" [Json.obj []]).1 (by simp) rfl

/-- C8: the `data` field of every produced record is the original
input element itself — so every key of the source object is still
reachable through the record, and over a whole manifest the records'
`data` fields are exactly the object elements of the source. -/
theorem C8_raw_data_round_trip (folder : String) (j : Json) :
    (build_db_record folder j).data = j ∧
    (∀ k, ((build_db_record folder j).data).lookup k = j.lookup k) ∧
    ((build_db_records folder j).map DbRecord.data =
      match j with
      | .obj _ => [j]
      | .arr items => items.filter Json.isObj
      | _ => []) := by
  refine ⟨rfl, fun _ => rfl, ?_⟩
  cases j <;> simp [build_db_records, build_db_record]
  exact List.map_id _

/-- C6: among the root's subdirectories (with distinct names, as
`os.listdir` yields), one is dropped by the scanner exactly when it
contains `upload_success.json`; its modification time and a present
`upload_failed.json` play no role in the exclusion. -/
theorem C6_success_marker_excludes (parent : String) (now : Nat)
    (items : List DirItem) (it : DirItem)
    (hmem : it ∈ items) (hdir : it.isDir = true)
    (hnames : (items.map DirItem.name).Nodup) :
    ((parent ++ "/" ++ it.name, it.name) ∈ get_subfolders_to_process parent now items)
      ↔ it.hasSuccessMarker = false := by
  constructor
  · intro hin
    rcases List.mem_map.mp hin with ⟨s, hs, hpair⟩
    have hs2 : s ∈ scan_filter parent now items :=
      (sortMtimeDesc_perm (scan_filter parent now items)).mem_iff.mp hs
    rcases List.mem_filterMap.mp hs2 with ⟨it2, hit2, hf⟩
    by_cases hd2 : it2.isDir
    · by_cases hm2 : it2.hasSuccessMarker
      · simp [hd2, hm2] at hf
      · have hsval : s = ⟨parent ++ "/" ++ it2.name, (it2.mtime).getD now, it2.name⟩ := by
          simp [hd2, hm2] at hf
          exact hf.symm
        have hname : it2.name = it.name := by
          have := congrArg Prod.snd hpair
          rw [hsval] at this
          exact this
        have : it2 = it :=
          List.inj_on_of_nodup_map hnames hit2 hmem hname
        rw [← this]
        exact Bool.eq_false_iff.mpr hm2
    · simp [hd2] at hf
  · intro hmarker
    have hf : (⟨parent ++ "/" ++ it.name, (it.mtime).getD now, it.name⟩ : SubEntry)
        ∈ scan_filter parent now items := by
      refine List.mem_filterMap.mpr ⟨it, hmem, ?_⟩
      simp [hdir, hmarker]
    have hsort : (⟨parent ++ "/" ++ it.name, (it.mtime).getD now, it.name⟩ : SubEntry)
        ∈ scanner_sorted parent now items :=
      (sortMtimeDesc_perm (scan_filter parent now items)).mem_iff.mpr hf
    exact List.mem_map.mpr ⟨_, hsort, rfl⟩

/-- C6 witness: a folder carrying only `upload_failed.json` is still
offered for processing. -/
theorem C6_success_marker_excludes_witness :
    ("p" ++ "/" ++ "a", "a") ∈ get_subfolders_to_process "p" 0
      [⟨"a", true, false, true, some 3⟩] :=
  (C6_success_marker_excludes "p" 0 [⟨"a", true, false, true, some 3⟩]
    ⟨"a", true, false, true, some 3⟩ (by decide) rfl (by decide)).mpr rfl

/-- C4 counterexample: two subfolders with equal modification time 5,
listed by the directory as b then a.  The scanner emits b before a:
ties follow the directory-listing order, not a name-sorted order. -/
theorem C4_counterexample_tie_order :
    get_subfolders_to_process "p" 9
        [⟨"b", true, false, false, some 5⟩, ⟨"a", true, false, false, some 5⟩] =
      [("p/b", "b"), ("p/a", "a")] ∧
    [("p/b", "b"), ("p/a", "a")] ≠ [("p/a", "a"), ("p/b", "b")] := by
  constructor
  · decide
  · decide

/-- C4 amended: the scanner's output is sorted by modification time
descending and is a permutation of the filtered listing; subfolders
with equal modification times keep the directory-listing order (the
sort is stable), which need not be name order; a subfolder whose
timestamp cannot be read is still included, with the current time as
its timestamp, and is ordered by that timestamp under the same stable
rule rather than specially last. -/
theorem C4_amended_scanner_order (parent : String) (now : Nat) (items : List DirItem) :
    List.Pairwise (fun a b => b.mtime ≤ a.mtime) (scanner_sorted parent now items) ∧
    List.Perm (scanner_sorted parent now items) (scan_filter parent now items) ∧
    (∀ k, (scanner_sorted parent now items).filter (fun s => s.mtime == k) =
      (scan_filter parent now items).filter (fun s => s.mtime == k)) ∧
    (∀ it ∈ items, it.isDir = true → it.hasSuccessMarker = false → it.mtime = none →
      (⟨parent ++ "/" ++ it.name, now, it.name⟩ : SubEntry) ∈ scanner_sorted parent now items) ∧
    get_subfolders_to_process parent now items =
      (scanner_sorted parent now items).map (fun s => (s.path, s.name)) := by
  refine ⟨sortMtimeDesc_sorted _, sortMtimeDesc_perm _, filter_sortMtimeDesc _, ?_, rfl⟩
  intro it hmem hdir hmarker hmtime
  have hf : (⟨parent ++ "/" ++ it.name, now, it.name⟩ : SubEntry)
      ∈ scan_filter parent now items := by
    refine List.mem_filterMap.mpr ⟨it, hmem, ?_⟩
    simp [hdir, hmarker, hmtime]
  exact (sortMtimeDesc_perm (scan_filter parent now items)).mem_iff.mpr hf

/-- C4 amended witness: the fallback clause applied to a concrete
unreadable-timestamp subfolder. -/
theorem C4_amended_scanner_order_witness :
    (⟨"p" ++ "/" ++ "b", 5, "b"⟩ : SubEntry)
      ∈ scanner_sorted "p" 5 [⟨"b", true, false, false, none⟩] :=
  (C4_amended_scanner_order "p" 5 [⟨"b", true, false, false, none⟩]).2.2.2.1
    ⟨"b", true, false, false, none⟩ (by decide) rfl rfl rfl

/-- C3 counterexample: a folder that fails on one run and succeeds on
a re-run ends up holding both `upload_failed.json` and
`upload_success.json` — the two terminal markers are not mutually
exclusive across runs, because `write_result_file` only backs up a
file of the same name. -/
theorem C3_counterexample_both_markers :
    "upload_success.json" ∈ process_marker_write (process_marker_write [] false) true ∧
    "upload_failed.json" ∈ process_marker_write (process_marker_write [] false) true := by
  constructor
  · decide
  · decide

/-- C3 amended: after a processing run whose marker write succeeds,
the marker matching the computed outcome is present; the opposite
marker is absent afterwards exactly when it was absent before — so a
first-time folder ends with exactly one marker, while a folder that
previously wrote the opposite marker keeps both. -/
theorem C3_amended_marker_presence (files : List String) (b : Bool) :
    marker_name b ∈ process_marker_write files b ∧
    (marker_name (!b) ∉ files → marker_name (!b) ∉ process_marker_write files b) ∧
    (marker_name (!b) ∈ files → marker_name (!b) ∈ process_marker_write files b) := by
  have hne : marker_name (!b) ≠ marker_name b := by cases b <;> decide
  have hneb : marker_name (!b) ≠ marker_name b ++ ".backup" := by cases b <;> decide
  refine ⟨List.mem_insert_self _ _, ?_, ?_⟩
  · intro habs hmem
    rcases List.mem_insert_iff.mp hmem with h | h
    · exact hne h
    · rw [process_marker_write, write_result_file] at *
      by_cases hb : marker_name b ∈ files
      · rw [if_pos hb] at h
        rcases List.mem_insert_iff.mp h with h2 | h2
        · exact hneb h2
        · exact habs (List.mem_of_mem_erase h2)
      · rw [if_neg hb] at h
        exact habs h
  · intro hmem
    refine List.mem_insert_of_mem ?_
    show marker_name (!b) ∈
      (if marker_name b ∈ files then
        List.insert (marker_name b ++ ".backup") (files.erase (marker_name b))
      else files)
    by_cases hb : marker_name b ∈ files
    · rw [if_pos hb]
      exact List.mem_insert_of_mem ((List.mem_erase_of_ne hne).mpr hmem)
    · rw [if_neg hb]
      exact hmem

/-- C3 amended witness: re-running a previously failed folder that now
succeeds keeps the success marker present and retains the old failure
marker. -/
theorem C3_amended_marker_presence_witness :
    marker_name true ∈ process_marker_write ["upload_failed.json"] true ∧
    marker_name (!true) ∈ process_marker_write ["upload_failed.json"] true :=
  ⟨(C3_amended_marker_presence ["upload_failed.json"] true).1,
   (C3_amended_marker_presence ["upload_failed.json"] true).2.2 (by decide)⟩

/-- C5 counterexample: a `KeyboardInterrupt` during the very first
folder breaks the loop, but since no folder had failed yet the run
returns exit code 0, not a non-zero status. -/
theorem C5_counterexample_interrupt_exit_zero :
    main_exit_code [FolderRun.interrupt, FolderRun.ok true] = 0 ∧
    drive [FolderRun.interrupt, FolderRun.ok true] = ⟨1, 0, 0, true⟩ := by
  constructor
  · decide
  · decide

/-- C5 amended: a `KeyboardInterrupt` during folder processing stops
further iteration — the tally is independent of the folders after the
interrupt — but the exit status is 1 only when some folder before the
interrupt had already failed, and 0 otherwise. -/
theorem C5_amended_interrupt_behaviour (pre post : List FolderRun)
    (hpre : FolderRun.interrupt ∉ pre) :
    drive (pre ++ FolderRun.interrupt :: post) =
      ⟨(drive pre).total + 1, (drive pre).succeeded, (drive pre).failed, true⟩ ∧
    main_exit_code (pre ++ FolderRun.interrupt :: post) =
      (if 0 < (drive pre).failed then 1 else 0) := by
  have hdrive : drive (pre ++ FolderRun.interrupt :: post) =
      ⟨(drive pre).total + 1, (drive pre).succeeded, (drive pre).failed, true⟩ := by
    induction pre with
    | nil => rfl
    | cons r rest ih =>
      have hr : r ≠ FolderRun.interrupt := fun h => hpre (h ▸ List.mem_cons_self r rest)
      have hrest : FolderRun.interrupt ∉ rest := fun h => hpre (List.mem_cons_of_mem r h)
      cases r with
      | ok b => cases b <;> simp [drive, ih hrest]
      | interrupt => exact absurd rfl hr
      | err m => simp [drive, ih hrest]
  refine ⟨hdrive, ?_⟩
  rw [main_exit_code]
  have hne : (pre ++ FolderRun.interrupt :: post).isEmpty = false := by
    cases pre <;> rfl
  rw [hne]
  simp only [hdrive, Bool.false_eq_true, if_false]
  simp

/-- C5 amended witness: one failed folder, then an interrupt, then an
unprocessed folder — the tally stops at the interrupt and the exit
code reflects only the earlier failure. -/
theorem C5_amended_interrupt_behaviour_witness :
    drive ([FolderRun.ok false] ++ FolderRun.interrupt :: [FolderRun.ok true]) =
      ⟨(drive [FolderRun.ok false]).total + 1, (drive [FolderRun.ok false]).succeeded,
        (drive [FolderRun.ok false]).failed, true⟩ ∧
    main_exit_code ([FolderRun.ok false] ++ FolderRun.interrupt :: [FolderRun.ok true]) =
      (if 0 < (drive [FolderRun.ok false]).failed then 1 else 0) :=
  C5_amended_interrupt_behaviour [FolderRun.ok false] [FolderRun.ok true] (by decide)

/-- C7: a file over the 50 MiB cap fails permanently on the first
attempt — one attempt used, no backoff sleeps — and lands in the
failed list with the "File too large" error; moreover the upload loop
distributes over concatenation of the job list, so every other file's
outcome is computed independently of it. -/
theorem C7_oversized_image_permanent_failure (folder_path folder_name : String)
    (j : ImageJob) (hp : j.info.present = true) (hr : j.info.readable = true)
    (hs : 50 * 1024 * 1024 < j.info.size) :
    upload_image_with_retry j.info (folder_path ++ "/" ++ j.filename) j.publicUrl j.exn 3 =
      ⟨false, "File too large (" ++ toString j.info.size ++ " bytes): "
        ++ (folder_path ++ "/" ++ j.filename), "", 1, []⟩ ∧
    upload_one_image folder_path folder_name j =
      .inr ⟨j.filename, "File too large (" ++ toString j.info.size ++ " bytes): "
        ++ (folder_path ++ "/" ++ j.filename)⟩ ∧
    (∀ l1 l2 : List ImageJob,
      upload_images_to_bucket folder_path folder_name (l1 ++ l2) =
        ((upload_images_to_bucket folder_path folder_name l1).1
            ++ (upload_images_to_bucket folder_path folder_name l2).1,
         (upload_images_to_bucket folder_path folder_name l1).2.1
            ++ (upload_images_to_bucket folder_path folder_name l2).2.1,
         (upload_images_to_bucket folder_path folder_name l1).2.2
            ++ (upload_images_to_bucket folder_path folder_name l2).2.2)) := by
  have h0 : ¬ j.info.size = 0 := by omega
  have hloop : upload_image_with_retry j.info (folder_path ++ "/" ++ j.filename)
      j.publicUrl j.exn 3 =
      ⟨false, "File too large (" ++ toString j.info.size ++ " bytes): "
        ++ (folder_path ++ "/" ++ j.filename), "", 1, []⟩ := by
    rw [upload_image_with_retry, upload_attempt_loop]
    simp [hp, hr, h0, hs]
  refine ⟨hloop, ?_, fun l1 l2 => upload_images_append folder_path folder_name l1 l2⟩
  rw [upload_one_image]
  simp [hloop]

/-- C7 witness: the permanent failure evaluated on a concrete
just-over-the-cap image. -/
theorem C7_oversized_image_permanent_failure_witness :
    upload_image_with_retry bigImageJob.info ("p" ++ "/" ++ bigImageJob.filename)
        bigImageJob.publicUrl bigImageJob.exn 3 =
      ⟨false, "File too large (" ++ toString bigImageJob.info.size ++ " bytes): "
        ++ ("p" ++ "/" ++ bigImageJob.filename), "", 1, []⟩ :=
  (C7_oversized_image_permanent_failure "p" "f" bigImageJob rfl rfl (by decide)).1
